import Mathlib

/-!
Verification of the hint-resolution and caching subsystem of beartype.

The development shallowly embeds the code under:

* beartype/_decor/_cache/cachehint.py          (cache_hint_nonpep563)
* beartype/_util/hint/utilhinttest.py          (is_hint, die_unless_hint, is_hint_ignorable)
* beartype/_util/func/mod/utilbeartypefunc.py  (is_func_unbeartypeable, is_func_beartyped,
                                                set_func_beartyped)
* beartype/_util/func/lib/utilbeartypefunc.py  (the older revision of the same module)
* beartype/claw/_pkg/clawpkgadd.py             (add_packages, get_package_conf_if_added)

Collaborator modules that the repository snapshot does not include (the hint sign
taxonomy, the memoization decorator, the package trie class, the identifier
tester, the sphinx detector) are modelled from the specification; each such
definition carries a doc comment starting with the words Modelled from the spec.
-/

-- ....................{ HINT DATA MODEL                     }....................

/-- Modelled from the spec: the closed tagged-variant enumeration of type-hint
shapes (disjunction, metadata-wrapped, container, plain class, forward
reference, tuple-union, other), plus a variant for unhashable objects.  The
spec data model gives every hint a discriminator sign and zero or more child
hints; this inductive realizes exactly that. -/
inductive Hint : Type where
  | anything : Hint
  | cls (name : String) : Hint
  | forwardref (name : String) : Hint
  | disjunction (children : List Hint) : Hint
  | annotated (origin : Hint) (metadata : List Nat) : Hint
  | container (sign : String) (children : List Hint) : Hint
  | tupleUnion (members : List Hint) : Hint
  | mutableObj (tag : Nat) : Hint
  | other (tag : Nat) : Hint

/-- A concrete runtime hint object: a structural value together with an
identity.  Two objects are the same instance exactly when they are equal as
values of this structure.  The tag none marks the canonical self-cached
instance for that structural value (hints cached by the host typing machinery,
for which identical logical hints are always the same object); tag some k
marks the k-th distinct non-self-cached heap instance. -/
structure HintObj : Type where
  val : Hint
  oid : Option Nat

/-- Modelled from the spec: membership in the finite frozenset
HINTS_SHALLOW_IGNORABLE of hints that are ignorable by definition (the
anything-goes top type and equivalents, here typing.Any and the root class
object). -/
def is_hint_shallow_ignorable : Hint → Bool
  | .anything => true
  | .cls n => n = "object"
  | _ => false

/-- Modelled from the spec: is_hint_pep, true only for members of the
PEP-compliant hint family the system recognizes (the top type, disjunctions,
metadata-wrapped hints and subscripted containers). -/
def is_hint_pep : Hint → Bool
  | .anything => true
  | .disjunction _ => true
  | .annotated _ _ => true
  | .container _ _ => true
  | _ => false

/-- Modelled from the spec: is_hint_pep_supported; in this model every
recognized PEP-compliant family member has check-generation logic. -/
def is_hint_pep_supported (h : Hint) : Bool :=
  is_hint_pep h

/-- Modelled from the spec: is_hint_nonpep, true only for the PEP-noncompliant
fallback forms: a plain class, a fully-qualified classname string (permitted
only when the string flag is set) or a tuple of classes and classnames. -/
def is_hint_nonpep (h : Hint) (is_str_valid : Bool) : Bool :=
  match h with
  | .cls _ => true
  | .forwardref _ => is_str_valid
  | .tupleUnion ms =>
      ms.all fun m =>
        match m with
        | .cls _ => true
        | .forwardref _ => is_str_valid
        | _ => false
  | _ => false

mutual
/-- Modelled from the spec: hashability of a hint object, the precondition for
participating in hash-based memoization.  A mutable object is unhashable, and
a compound object hashes its components. -/
def is_hashable : Hint → Bool
  | .mutableObj _ => false
  | .annotated origin _ => is_hashable origin
  | .disjunction cs => all_hashable cs
  | .container _ cs => all_hashable cs
  | .tupleUnion ms => all_hashable ms
  | _ => true

/-- Hashability of every hint in a list. -/
def all_hashable : List Hint → Bool
  | [] => true
  | c :: cs => is_hashable c && all_hashable cs
end

-- ....................{ ERRORS                              }....................

/-- Error taxonomy of the classifier: the hashability error (the TypeError a
hash-based memoization key failure raises), the unsupported-PEP-compliant kind
(BeartypeDecorHintPepUnsupportedException) and the plain unsupported kind
(BeartypeDecorHintNonPepException).  The label is the caller-supplied
human-readable prefix. -/
inductive HintErr : Type where
  | typeError : HintErr
  | unsupportedPep (label : String) : HintErr
  | unsupportedNonpep (label : String) : HintErr
deriving DecidableEq

-- ....................{ CLASSIFIER (utilhinttest.py)        }....................

/-- Embedding of is_hint (utilhinttest.py lines 130-191).  The source body
returns is_hint_pep_supported(hint) if is_hint_pep(hint) else
is_hint_nonpep(hint, is_str_valid).  The enclosing hashability gate models the
callable_cached memoization decorator (modelled from the spec: the memoization
key is hash-based, so an unhashable argument raises TypeError before the body
runs). -/
def is_hint (hint : Hint) (is_str_valid : Bool) : Except HintErr Bool :=
  if is_hashable hint then
    .ok (if is_hint_pep hint then is_hint_pep_supported hint
         else is_hint_nonpep hint is_str_valid)
  else
    .error .typeError

/-- Modelled from the spec: die_unless_hint_pep_supported, raising the
PEP-specific unsupported error for recognized but unimplemented shapes. -/
def die_unless_hint_pep_supported (hint : Hint) (hint_label : String) :
    Except HintErr Unit :=
  if is_hint_pep_supported hint then .ok () else .error (.unsupportedPep hint_label)

/-- Modelled from the spec: die_unless_hint_nonpep, raising the plain
unsupported error when the object is not a fallback form either. -/
def die_unless_hint_nonpep (hint : Hint) (hint_label : String)
    (is_str_valid : Bool) : Except HintErr Unit :=
  if is_hint_nonpep hint is_str_valid then .ok ()
  else .error (.unsupportedNonpep hint_label)

/-- Embedding of die_unless_hint (utilhinttest.py lines 36-127): first the
memoized is_hint fast path (whose hashability TypeError propagates), then on
the slow path the PEP-supported check when the hint is PEP-compliant, then the
noncompliant check. -/
def die_unless_hint (hint : Hint) (hint_label : String) (is_str_valid : Bool) :
    Except HintErr Unit :=
  match is_hint hint is_str_valid with
  | .error e => .error e
  | .ok true => .ok ()
  | .ok false =>
      match (if is_hint_pep hint then die_unless_hint_pep_supported hint hint_label
             else .ok ()) with
      | .error e => .error e
      | .ok _ => die_unless_hint_nonpep hint hint_label is_str_valid

-- ....................{ IGNORABILITY (utilhinttest.py)      }....................

mutual
/-- Embedding of is_hint_ignorable (utilhinttest.py lines 194-270): true when
the hint is shallowly ignorable; else, for a PEP-compliant hint whose sign is
a union, true when any child is recursively ignorable, and for a
metadata-wrapped hint, true when the wrapped origin is recursively ignorable;
false otherwise. -/
def is_hint_ignorable (h : Hint) : Bool :=
  if is_hint_shallow_ignorable h then true
  else if is_hint_pep h then
    match h with
    | .disjunction cs => any_hint_ignorable cs
    | .annotated origin _ => is_hint_ignorable origin
    | _ => false
  else false

/-- Existential fold of is_hint_ignorable over the child hints of a union,
embedding the generator expression any(is_hint_ignorable(c) for c in args). -/
def any_hint_ignorable : List Hint → Bool
  | [] => false
  | c :: cs => is_hint_ignorable c || any_hint_ignorable cs
end

-- ....................{ COERCION ENGINE (cachehint.py)      }....................

/-- Association-list lookup, embedding a dictionary read. -/
def assocLookup {α : Type} : List (String × α) → String → Option α
  | [], _ => none
  | (k, v) :: rest, key => if k = key then some v else assocLookup rest key

/-- Association-list write, embedding a dictionary assignment: an existing key
is overwritten in place, a new key is appended in insertion order. -/
def assocUpdate {α : Type} : List (String × α) → String → α → List (String × α)
  | [], key, v => [(key, v)]
  | (k, w) :: rest, key, v =>
      if k = key then (key, v) :: rest else (k, w) :: assocUpdate rest key v

/-- Modelled from the spec: typing.Union subscription.  Subscripting the
disjunction constructor by a tuple of members yields the canonical disjunction
hint over the same members in the same order; union hints are self-cached by
the host typing machinery, so the resulting object is the canonical instance
for that structural value (identity tag none). -/
def union_getitem (members : List Hint) : HintObj :=
  HintObj.mk (.disjunction members) none

/-- Embedding of cache_hint_nonpep563 (cachehint.py lines 82-247).  State is
threaded explicitly: the module-level cache _HINT_REPR_TO_HINT keyed by
machine-readable representation, and the owner callable's annotations mapping.
The body first coerces a PEP-noncompliant tuple union into the equivalent
PEP-compliant union while overwriting the annotation slot named pith_name,
then validates via die_unless_hint, then returns the hint.  Exactly as in the
source, no step reads or writes the _HINT_REPR_TO_HINT cache, which is
returned unchanged. -/
def cache_hint_nonpep563
    (hint_repr_to_hint : List (String × HintObj))
    (func_anns : List (String × HintObj))
    (pith_name : String) (hint : HintObj) (hint_label : String) :
    List (String × HintObj) × List (String × HintObj) × Except HintErr HintObj :=
  let coerced : List (String × HintObj) × HintObj :=
    match hint.val with
    | .tupleUnion members =>
        (assocUpdate func_anns pith_name (union_getitem members),
         union_getitem members)
    | _ => (func_anns, hint)
  match die_unless_hint coerced.2.val hint_label true with
  | .error e => (hint_repr_to_hint, coerced.1, .error e)
  | .ok _ => (hint_repr_to_hint, coerced.1, .ok coerced.2)

-- ....................{ UNBEARTYPEABLE TESTER               }....................

/-- A pure-Python callable as the tester observes it: the annotations mapping
(none when the callable does not declare the dunder attribute at all, as for
callables exported by the standard operator module), the no-type-check opt-out
marker set by the typing.no_type_check decorator, and the beartype wrapper
marker attribute. -/
structure Func : Type where
  func_anns : Option (List (String × HintObj))
  no_type_check : Bool
  beartype_wrapper : Bool

/-- Modelled from the spec: is_func_pep484_notypechecked, reading the standard
skip-type-checking opt-out marker. -/
def is_func_pep484_notypechecked (func : Func) : Bool :=
  func.no_type_check

/-- Embedding of is_func_beartyped (mod/utilbeartypefunc.py lines 72-92):
true only if the callable carries the beartype wrapper marker attribute. -/
def is_func_beartyped (func : Func) : Bool :=
  func.beartype_wrapper

/-- Embedding of set_func_beartyped (mod/utilbeartypefunc.py lines 95-111):
stamp the beartype wrapper marker attribute on the callable. -/
def set_func_beartyped (func : Func) : Func :=
  { func with beartype_wrapper := true }

/-- Embedding of is_func_unbeartypeable (mod/utilbeartypefunc.py lines 22-69).
The annotations dunder is read safely with a getattr defaulting to None, so an
absent attribute and an empty mapping are both falsy.  The
sphinx-autodocumentation flag is threaded as an explicit parameter, following
the spec design note splitting the pure predicate from the uncached
environment flag. -/
def is_func_unbeartypeable (sphinx_autodocing : Bool) (func : Func) : Bool :=
  (match func.func_anns with
   | none => true
   | some anns => anns.isEmpty) ||
  is_func_pep484_notypechecked func ||
  is_func_beartyped func ||
  sphinx_autodocing

/-- The runtime error kind of a failed attribute access. -/
inductive PyRuntimeError : Type where
  | attributeError : PyRuntimeError
deriving DecidableEq

/-- Embedding of the older revision is_func_unbeartypeable
(lib/utilbeartypefunc.py lines 22-61), which reads func.__annotations__
directly: a callable that does not declare the attribute raises
AttributeError instead of being reported unbeartypeable. -/
def is_func_unbeartypeable_lib (sphinx_autodocing : Bool) (func : Func) :
    Except PyRuntimeError Bool :=
  match func.func_anns with
  | none => .error .attributeError
  | some anns =>
      .ok (anns.isEmpty ||
           is_func_pep484_notypechecked func ||
           is_func_beartyped func ||
           sphinx_autodocing)

-- ....................{ PACKAGE REGISTRATION (clawpkgadd.py) }....................

/-- Character-list core of the split on dot delimiters below. -/
def splitDotChars : List Char → List (List Char)
  | [] => [[]]
  | c :: rest =>
      let r := splitDotChars rest
      if c = '.' then [] :: r
      else
        match r with
        | [] => [[c]]
        | g :: gs => (c :: g) :: gs

/-- Embedding of the Python call text.split(dot): the list of unqualified
basenames of a fully-qualified name, never empty (the empty string splits to
the singleton list of the empty string). -/
def splitDot (s : String) : List String :=
  (splitDotChars s.data).map String.mk

/-- Modelled from the spec: validity of a single unqualified Python
identifier (nonempty, a letter or underscore first, letters, digits and
underscores after). -/
def is_python_identifier (s : String) : Bool :=
  match s.data with
  | [] => false
  | c :: rest => (c.isAlpha || c = '_') && rest.all fun d => d.isAlphanum || d = '_'

/-- Modelled from the spec: is_identifier
(beartype._util.text.utiltextident), true only if the text is a dot-delimited
concatenation of valid Python identifiers. -/
def is_identifier (text : String) : Bool :=
  (splitDot text).all is_python_identifier

/-- Modelled from the spec: the PackageBasenameToSubpackages trie node
(beartype.claw._pkg._clawpkgtrie): the configuration registered for the
package this node denotes, if any, and the subdictionary mapping each child
basename to its subpackage node.  Beartype configurations are self-caching
(structurally equal configurations are the identical instance), so a
configuration object is modelled by a numeric identity. -/
inductive PkgTrie : Type where
  | mk (conf_if_added : Option Nat) (children : List (String × PkgTrie))

/-- The configuration slot of a trie node. -/
def PkgTrie.conf_if_added : PkgTrie → Option Nat
  | .mk c _ => c

/-- The child mapping of a trie node. -/
def PkgTrie.children : PkgTrie → List (String × PkgTrie)
  | .mk _ ch => ch

/-- The registration failure kinds carried by
BeartypeClawRegistrationException, one per distinct message raised by
add_packages (clawpkgadd.py lines 318-443). -/
inductive ClawRegistrationError : Type where
  | names_empty : ClawRegistrationError
  | name_not_string : ClawRegistrationError
  | name_not_identifier (name : String) : ClawRegistrationError
  | conflicting_conf (name : String) : ClawRegistrationError
deriving DecidableEq

/-- A member of the iterable of package names: a string or some other
object. -/
inductive PyVal : Type where
  | str (s : String) : PyVal
  | nonstr (tag : Nat) : PyVal
deriving DecidableEq

/-- Validity of one member of the package-names iterable: it must be a string
that is a dot-delimited chain of valid identifiers. -/
def is_valid_package_name_obj : PyVal → Bool
  | .str s => is_identifier s
  | .nonstr _ => false

/-- The validation loop of add_packages (clawpkgadd.py lines 344-359): the
first failure among the passed names, if any, before any registration
occurs. -/
def validate_package_names : List PyVal → Option ClawRegistrationError
  | [] => none
  | .nonstr _ :: _ => some .name_not_string
  | .str s :: rest =>
      if is_identifier s then validate_package_names rest
      else some (.name_not_identifier s)

/-- The per-name trie walk of the registration loop (clawpkgadd.py lines
363-443): descend through the basenames, creating missing intermediate nodes,
and at the final node either install the configuration, accept silently when
the identical configuration is already installed, or fail on a conflicting
one.  On a conflicting re-registration of a fully registered name no node is
created, so returning the error alone matches the in-place behavior. -/
def register_basenames (package_name : String) :
    PkgTrie → List String → Nat → Except ClawRegistrationError PkgTrie
  | .mk conf0 children, [], conf =>
      match conf0 with
      | none => .ok (.mk (some conf) children)
      | some conf_curr =>
          if conf_curr = conf then .ok (.mk (some conf_curr) children)
          else .error (.conflicting_conf package_name)
  | .mk conf0 children, basename :: rest, conf =>
      let sub := (assocLookup children basename).getD (.mk none [])
      match register_basenames package_name sub rest conf with
      | .ok sub2 => .ok (.mk conf0 (assocUpdate children basename sub2))
      | .error e => .error e

/-- The registration loop of add_packages over the already validated names,
stopping at the first conflicting name. -/
def register_packages : PkgTrie → List PyVal → Nat →
    PkgTrie × Option ClawRegistrationError
  | trie, [], _ => (trie, none)
  | trie, .str s :: rest, conf =>
      match register_basenames s trie (splitDot s) conf with
      | .ok trie2 => register_packages trie2 rest conf
      | .error e => (trie, some e)
  | trie, .nonstr _ :: _, _ => (trie, some .name_not_string)

/-- Embedding of add_packages (clawpkgadd.py lines 260-443) on an iterable of
package names (the single-string convenience form is the singleton list).
The configuration argument is necessarily a configuration instance, absorbing
the isinstance guard.  The whole validation loop runs before the registration
loop, so a validation failure leaves the trie untouched. -/
def add_packages (trie : PkgTrie) (package_names : List PyVal) (conf : Nat) :
    PkgTrie × Option ClawRegistrationError :=
  if package_names.isEmpty then (trie, some .names_empty)
  else
    match validate_package_names package_names with
    | some e => (trie, some e)
    | none => register_packages trie package_names conf

/-- The lookup walk of get_package_conf_if_added (clawpkgadd.py lines
149-180): descend through the basenames while nodes exist, taking the most
granular installed configuration seen, falling back to the configuration
accumulated so far when a node installs none. -/
def get_package_conf_walk : PkgTrie → List String → Option Nat → Option Nat
  | _, [], acc => acc
  | t, basename :: rest, acc =>
      match assocLookup t.children basename with
      | none => acc
      | some sub =>
          get_package_conf_walk sub rest
            (match sub.conf_if_added with
             | some c => some c
             | none => acc)

/-- Embedding of get_package_conf_if_added (clawpkgadd.py lines 63-180): a
name whose first dot-separated component is the literal beartype is silently
ignored, returning none regardless of the registry; otherwise the trie walk
starts from the root configuration installed by a global registration, if
any. -/
def get_package_conf_if_added (trie : PkgTrie) (package_name : String) :
    Option Nat :=
  let package_basenames := splitDot package_name
  if package_basenames.head? = some "beartype" then none
  else get_package_conf_walk trie package_basenames trie.conf_if_added

-- ....................{ PROOF-SUPPORT DEFINITIONS           }....................

/-- Discriminator for the PEP-noncompliant tuple-union shape, the only shape
the coercion step of cache_hint_nonpep563 rewrites. -/
def is_tuple_hint : Hint → Bool
  | .tupleUnion _ => true
  | _ => false

-- ....................{ HELPER LEMMAS                       }....................

theorem any_hint_ignorable_iff (cs : List Hint) :
    any_hint_ignorable cs = true ↔ ∃ c ∈ cs, is_hint_ignorable c = true := by
  induction cs with
  | nil => simp [any_hint_ignorable]
  | cons c rest ih =>
      simp [any_hint_ignorable, Bool.or_eq_true, ih, List.exists_mem_cons_iff]

theorem is_tuple_hint_iff (v : Hint) :
    is_tuple_hint v = true ↔ ∃ ms, v = Hint.tupleUnion ms := by
  cases v <;> simp [is_tuple_hint]

theorem cache_hint_not_tuple (cache anns : List (String × HintObj))
    (pith_name hint_label : String) (h : HintObj)
    (hnt : is_tuple_hint h.val = false) :
    cache_hint_nonpep563 cache anns pith_name h hint_label =
      (cache, anns,
        match die_unless_hint h.val hint_label true with
        | .error e => .error e
        | .ok _ => .ok h) := by
  obtain ⟨v, oid⟩ := h
  cases v <;> simp_all [cache_hint_nonpep563, is_tuple_hint] <;> split <;> rfl

-- ....................{ CLAIM THEOREMS                      }....................

/-- C3: for every PEP-compliant disjunction hint that is not shallowly
ignorable, is_hint_ignorable returns true if and only if at least one child
hint of the union is recursively ignorable (existential quantification over
the children). -/
theorem is_hint_ignorable_union_or (children : List Hint)
    (hsh : is_hint_shallow_ignorable (Hint.disjunction children) = false) :
    is_hint_ignorable (Hint.disjunction children) = true ↔
      ∃ c ∈ children, is_hint_ignorable c = true := by
  rw [is_hint_ignorable]
  simp [is_hint_shallow_ignorable, is_hint_pep]
  exact any_hint_ignorable_iff children

/-- Witness for C3: the disjunction of the top type and a narrow class is
ignorable because one child is. -/
theorem is_hint_ignorable_union_or_witness :
    is_hint_ignorable (Hint.disjunction [Hint.anything, Hint.cls "int"]) = true :=
  (is_hint_ignorable_union_or [Hint.anything, Hint.cls "int"] rfl).mpr
    ⟨Hint.anything, List.mem_cons_self _ _, rfl⟩

/-- C7: for every metadata-wrapped hint that is not shallowly ignorable,
is_hint_ignorable returns true if and only if the wrapped origin hint is
recursively ignorable, and the auxiliary metadata never affect the result. -/
theorem is_hint_ignorable_annotated_passthrough (origin : Hint)
    (md md2 : List Nat)
    (hsh : is_hint_shallow_ignorable (Hint.annotated origin md) = false) :
    is_hint_ignorable (Hint.annotated origin md) = is_hint_ignorable origin ∧
    is_hint_ignorable (Hint.annotated origin md) =
      is_hint_ignorable (Hint.annotated origin md2) := by
  constructor <;>
    simp [is_hint_ignorable, is_hint_shallow_ignorable, is_hint_pep]

/-- Witness for C7: a metadata-wrapped narrow class is exactly as ignorable as
the class itself, whatever the metadata. -/
theorem is_hint_ignorable_annotated_passthrough_witness :
    (is_hint_ignorable (Hint.annotated (Hint.cls "int") [50]) =
      is_hint_ignorable (Hint.cls "int")) ∧
    is_hint_ignorable (Hint.annotated (Hint.cls "int") [50]) =
      is_hint_ignorable (Hint.annotated (Hint.cls "int") []) :=
  is_hint_ignorable_annotated_passthrough (Hint.cls "int") [50] [] rfl

/-- C5: for every unhashable object, is_hint and die_unless_hint raise the
hashability TypeError, never a classification-unsupported error kind. -/
theorem is_hint_unhashable_type_error (hint : Hint) (hint_label : String)
    (is_str_valid : Bool) (hh : is_hashable hint = false) :
    is_hint hint is_str_valid = .error .typeError ∧
    die_unless_hint hint hint_label is_str_valid = .error .typeError := by
  have h1 : is_hint hint is_str_valid = .error .typeError := by
    simp [is_hint, hh]
  exact ⟨h1, by simp [die_unless_hint, h1]⟩

/-- Witness for C5: a mutable collection instance is rejected with the
hashability error by both entry points. -/
theorem is_hint_unhashable_type_error_witness :
    is_hint (Hint.mutableObj 0) true = .error .typeError ∧
    die_unless_hint (Hint.mutableObj 0) "some label" true = .error .typeError :=
  is_hint_unhashable_type_error (Hint.mutableObj 0) "some label" true rfl

/-- C1: the claimed deduplication does not happen.  Two structurally equal but
distinct non-self-cached hint instances resolve, through cache_hint_nonpep563,
to themselves: the resolved objects are distinct instances and the
_HINT_REPR_TO_HINT cache is returned untouched (here empty), so at no point
does a canonical instance per signature exist in it. -/
theorem cache_hint_nonpep563_no_dedup :
    (HintObj.mk (Hint.container "list" [Hint.cls "int"]) (some 0)).val =
      (HintObj.mk (Hint.container "list" [Hint.cls "int"]) (some 1)).val ∧
    HintObj.mk (Hint.container "list" [Hint.cls "int"]) (some 0) ≠
      HintObj.mk (Hint.container "list" [Hint.cls "int"]) (some 1) ∧
    cache_hint_nonpep563 []
        [("x", HintObj.mk (Hint.container "list" [Hint.cls "int"]) (some 0))]
        "x" (HintObj.mk (Hint.container "list" [Hint.cls "int"]) (some 0)) "lbl" =
      ([], [("x", HintObj.mk (Hint.container "list" [Hint.cls "int"]) (some 0))],
        .ok (HintObj.mk (Hint.container "list" [Hint.cls "int"]) (some 0))) ∧
    cache_hint_nonpep563 []
        [("x", HintObj.mk (Hint.container "list" [Hint.cls "int"]) (some 1))]
        "x" (HintObj.mk (Hint.container "list" [Hint.cls "int"]) (some 1)) "lbl" =
      ([], [("x", HintObj.mk (Hint.container "list" [Hint.cls "int"]) (some 1))],
        .ok (HintObj.mk (Hint.container "list" [Hint.cls "int"]) (some 1))) := by
  refine ⟨rfl, fun h => absurd (congrArg HintObj.oid h) (by decide), rfl, rfl⟩

/-- C2: for every tuple hint, cache_hint_nonpep563 rewrites it into the
PEP-compliant union subscripted by the same members in the same order,
overwrites the annotation slot named pith_name with that union before the
validation step runs (the overwrite is visible whether validation succeeds or
fails), and returns the rewritten hint on success. -/
theorem cache_hint_nonpep563_tuple_coercion
    (cache anns : List (String × HintObj)) (pith_name hint_label : String)
    (members : List Hint) (t : Option Nat) :
    ((cache_hint_nonpep563 cache anns pith_name
        (HintObj.mk (Hint.tupleUnion members) t) hint_label).2.1 =
      assocUpdate anns pith_name (union_getitem members)) ∧
    (union_getitem members).val = Hint.disjunction members ∧
    ((cache_hint_nonpep563 cache anns pith_name
        (HintObj.mk (Hint.tupleUnion members) t) hint_label).2.2 =
        .ok (union_getitem members) ∨
      ∃ e, (cache_hint_nonpep563 cache anns pith_name
        (HintObj.mk (Hint.tupleUnion members) t) hint_label).2.2 = .error e) := by
  cases hdie : die_unless_hint (Hint.disjunction members) hint_label true with
  | ok u =>
      refine ⟨?_, rfl, Or.inl ?_⟩ <;>
        simp [cache_hint_nonpep563, union_getitem, hdie]
  | error e =>
      refine ⟨?_, rfl, Or.inr ⟨e, ?_⟩⟩ <;>
        simp [cache_hint_nonpep563, union_getitem, hdie]

/-- C9: marking a callable as beartyped once or twice leaves is_func_beartyped
true and raises nothing, a callable created unmarked reads false, and a marked
callable never transitions back (the two-state machine is irreversible). -/
theorem func_beartyped_state_machine (f : Func)
    (anns : Option (List (String × HintObj))) (ntc : Bool) :
    is_func_beartyped (Func.mk anns ntc false) = false ∧
    is_func_beartyped (set_func_beartyped f) = true ∧
    is_func_beartyped (set_func_beartyped (set_func_beartyped f)) = true ∧
    set_func_beartyped (set_func_beartyped f) = set_func_beartyped f ∧
    (is_func_beartyped f = true →
      is_func_beartyped (set_func_beartyped f) = true) :=
  ⟨rfl, rfl, rfl, rfl, fun _ => rfl⟩

/-- Witness for C9: the state machine on a concrete fresh callable and a
concrete already-marked callable. -/
theorem func_beartyped_state_machine_witness :
    is_func_beartyped (Func.mk none false false) = false ∧
    is_func_beartyped (set_func_beartyped (Func.mk none false true)) = true ∧
    is_func_beartyped
      (set_func_beartyped (set_func_beartyped (Func.mk none false true))) = true ∧
    set_func_beartyped (set_func_beartyped (Func.mk none false true)) =
      set_func_beartyped (Func.mk none false true) ∧
    is_func_beartyped (set_func_beartyped (Func.mk none false true)) = true := by
  have h := func_beartyped_state_machine (Func.mk none false true) none false
  exact ⟨h.1, h.2.1, h.2.2.1, h.2.2.2.1, h.2.2.2.2 rfl⟩

/-- C10: for every package name whose first dot-separated component is the
literal beartype, get_package_conf_if_added returns none regardless of the
contents of the package registry. -/
theorem get_package_conf_if_added_beartype_none (trie : PkgTrie)
    (package_name : String)
    (hfirst : (splitDot package_name).head? = some "beartype") :
    get_package_conf_if_added trie package_name = none := by
  simp [get_package_conf_if_added, hfirst]

/-- Witness for C10: even with the beartype package itself and a global
configuration registered, the lookup is silently ignored. -/
theorem get_package_conf_if_added_beartype_none_witness :
    get_package_conf_if_added
      (PkgTrie.mk (some 7) [("beartype", PkgTrie.mk (some 5) [])])
      "beartype.roar" = none :=
  get_package_conf_if_added_beartype_none
    (PkgTrie.mk (some 7) [("beartype", PkgTrie.mk (some 5) [])])
    "beartype.roar" rfl

theorem cache_hint_ok_inv (cache anns cache2 anns2 : List (String × HintObj))
    (pith_name hint_label : String) (h h2 : HintObj)
    (hcall : cache_hint_nonpep563 cache anns pith_name h hint_label =
      (cache2, anns2, .ok h2)) :
    cache2 = cache ∧ is_tuple_hint h2.val = false ∧
    die_unless_hint h2.val hint_label true = .ok () := by
  by_cases ht : is_tuple_hint h.val = true
  · obtain ⟨ms, hv⟩ := (is_tuple_hint_iff h.val).mp ht
    obtain ⟨v, oid⟩ := h
    simp only at hv
    subst hv
    cases hdie : die_unless_hint (Hint.disjunction ms) hint_label true with
    | error e => simp [cache_hint_nonpep563, union_getitem, hdie] at hcall
    | ok u =>
        cases u
        simp [cache_hint_nonpep563, union_getitem, hdie] at hcall
        obtain ⟨hc, -, hh⟩ := hcall
        subst hc
        subst hh
        exact ⟨rfl, rfl, hdie⟩
  · replace ht : is_tuple_hint h.val = false := by simpa using ht
    rw [cache_hint_not_tuple cache anns pith_name hint_label h ht] at hcall
    cases hdie : die_unless_hint h.val hint_label true with
    | error e => rw [hdie] at hcall; simp at hcall
    | ok u =>
        cases u
        rw [hdie] at hcall
        simp [Prod.mk.injEq] at hcall
        obtain ⟨hc, -, hh⟩ := hcall
        subst hc
        subst hh
        exact ⟨rfl, ht, hdie⟩

/-- C4: resolution is idempotent.  Whenever cache_hint_nonpep563 succeeds,
feeding its returned hint back in (with the possibly updated annotations) is
a no-op: the identical hint instance is returned and neither the annotations
nor the _HINT_REPR_TO_HINT cache change. -/
theorem cache_hint_nonpep563_idempotent
    (cache anns cache2 anns2 : List (String × HintObj))
    (pith_name hint_label : String) (hint hint2 : HintObj)
    (hcall : cache_hint_nonpep563 cache anns pith_name hint hint_label =
      (cache2, anns2, .ok hint2)) :
    cache_hint_nonpep563 cache2 anns2 pith_name hint2 hint_label =
      (cache2, anns2, .ok hint2) := by
  obtain ⟨-, ht, hdie⟩ :=
    cache_hint_ok_inv cache anns cache2 anns2 pith_name hint_label hint hint2 hcall
  rw [cache_hint_not_tuple cache2 anns2 pith_name hint_label hint2 ht, hdie]

/-- Witness for C4: the result of coercing a concrete tuple union is returned
unchanged, with identical annotations, by a second call. -/
theorem cache_hint_nonpep563_idempotent_witness :
    cache_hint_nonpep563 []
      [("x", HintObj.mk (Hint.disjunction [Hint.cls "int", Hint.cls "str"]) none)]
      "x" (HintObj.mk (Hint.disjunction [Hint.cls "int", Hint.cls "str"]) none)
      "lbl" =
      ([],
       [("x", HintObj.mk (Hint.disjunction [Hint.cls "int", Hint.cls "str"]) none)],
       .ok (HintObj.mk (Hint.disjunction [Hint.cls "int", Hint.cls "str"]) none)) :=
  cache_hint_nonpep563_idempotent [] [] []
    [("x", HintObj.mk (Hint.disjunction [Hint.cls "int", Hint.cls "str"]) none)]
    "x" "lbl"
    (HintObj.mk (Hint.tupleUnion [Hint.cls "int", Hint.cls "str"]) (some 5))
    (HintObj.mk (Hint.disjunction [Hint.cls "int", Hint.cls "str"]) none) rfl

/-- C6: the current is_func_unbeartypeable returns true exactly when the
callable has no annotations (attribute absent or empty), is opted out by the
no-type-check convention, already carries the beartype marker, or sphinx is
autodocumenting; it never raises.  The older revision in lib/, however, reads
the annotations dunder directly and raises AttributeError on a callable that
does not declare it, where the claim requires returning true. -/
theorem is_func_unbeartypeable_spec :
    (∀ (sphinx_autodocing : Bool) (f : Func),
      is_func_unbeartypeable sphinx_autodocing f = true ↔
        (f.func_anns = none ∨ f.func_anns = some [] ∨
         is_func_pep484_notypechecked f = true ∨ is_func_beartyped f = true ∨
         sphinx_autodocing = true)) ∧
    is_func_unbeartypeable_lib false (Func.mk none false false) =
      .error .attributeError ∧
    is_func_unbeartypeable false (Func.mk none false false) = true := by
  refine ⟨?_, rfl, rfl⟩
  intro s f
  obtain ⟨a, n, b⟩ := f
  cases a with
  | none =>
      simp [is_func_unbeartypeable, is_func_pep484_notypechecked,
        is_func_beartyped]
  | some l =>
      simp [is_func_unbeartypeable, is_func_pep484_notypechecked,
        is_func_beartyped, List.isEmpty_iff, or_assoc]

theorem assocLookup_assocUpdate {α : Type} (l : List (String × α))
    (k : String) (v : α) :
    assocLookup (assocUpdate l k v) k = some v := by
  induction l with
  | nil => simp [assocUpdate, assocLookup]
  | cons kv rest ih =>
      obtain ⟨k1, w⟩ := kv
      by_cases hk : k1 = k <;> simp [assocUpdate, assocLookup, hk, ih]

theorem assocUpdate_idem {α : Type} (l : List (String × α))
    (k : String) (v : α) :
    assocUpdate (assocUpdate l k v) k v = assocUpdate l k v := by
  induction l with
  | nil => simp [assocUpdate]
  | cons kv rest ih =>
      obtain ⟨k1, w⟩ := kv
      by_cases hk : k1 = k <;> simp [assocUpdate, hk, ih]

theorem register_basenames_idem (name : String) (path : List String)
    (conf : Nat) (t t2 : PkgTrie)
    (hreg : register_basenames name t path conf = .ok t2) :
    register_basenames name t2 path conf = .ok t2 := by
  induction path generalizing t t2 with
  | nil =>
      obtain ⟨c0, ch⟩ := t
      cases c0 with
      | none =>
          simp [register_basenames] at hreg
          subst hreg
          simp [register_basenames]
      | some c =>
          by_cases hc : c = conf
          · simp [register_basenames, hc] at hreg
            subst hreg
            simp [register_basenames]
          · simp [register_basenames, hc] at hreg
  | cons b rest ih =>
      obtain ⟨c0, ch⟩ := t
      cases hs : register_basenames name
          ((assocLookup ch b).getD (PkgTrie.mk none [])) rest conf with
      | error e => simp [register_basenames, hs] at hreg
      | ok sub2 =>
          simp [register_basenames, hs] at hreg
          subst hreg
          simp [register_basenames, PkgTrie.children, assocLookup_assocUpdate,
            ih _ _ hs, assocUpdate_idem]

theorem register_basenames_conflict (name : String) (path : List String)
    (conf conf2 : Nat) (t t2 : PkgTrie)
    (hreg : register_basenames name t path conf = .ok t2)
    (hne : conf2 ≠ conf) :
    register_basenames name t2 path conf2 =
      .error (.conflicting_conf name) := by
  induction path generalizing t t2 with
  | nil =>
      obtain ⟨c0, ch⟩ := t
      cases c0 with
      | none =>
          simp [register_basenames] at hreg
          subst hreg
          simp [register_basenames]
          omega
      | some c =>
          by_cases hc : c = conf
          · simp [register_basenames, hc] at hreg
            subst hreg
            subst hc
            simp [register_basenames]
            omega
          · simp [register_basenames, hc] at hreg
  | cons b rest ih =>
      obtain ⟨c0, ch⟩ := t
      cases hs : register_basenames name
          ((assocLookup ch b).getD (PkgTrie.mk none [])) rest conf with
      | error e => simp [register_basenames, hs] at hreg
      | ok sub2 =>
          simp [register_basenames, hs] at hreg
          subst hreg
          simp [register_basenames, PkgTrie.children, assocLookup_assocUpdate,
            ih _ _ hs]

theorem validate_some_of_invalid (names : List PyVal) (x : PyVal)
    (hx : x ∈ names) (hinv : is_valid_package_name_obj x = false) :
    ∃ e, validate_package_names names = some e := by
  induction names with
  | nil => cases hx
  | cons y rest ih =>
      cases y with
      | nonstr tag => exact ⟨.name_not_string, rfl⟩
      | str s =>
          by_cases hs : is_identifier s = true
          · rcases List.mem_cons.mp hx with h | h
            · subst h
              simp [is_valid_package_name_obj, hs] at hinv
            · obtain ⟨e, he⟩ := ih h
              exact ⟨e, by simp [validate_package_names, hs, he]⟩
          · exact ⟨.name_not_identifier s,
              by simp [validate_package_names, hs]⟩

/-- C8: registering a package name previously registered under a different
configuration object fails with the registration error (leaving the registry
as it was); registering it again under the identical configuration is a
silent no-op leaving the registry unchanged; and an empty iterable of names,
a non-string name, or a name that is not a dot-delimited chain of valid
identifiers fails with the registration error before any registration
occurs. -/
theorem add_packages_registration (trie t1 : PkgTrie) (n : String)
    (conf conf2 : Nat) (names : List PyVal)
    (hreg : add_packages trie [PyVal.str n] conf = (t1, none)) :
    add_packages t1 [PyVal.str n] conf = (t1, none) ∧
    (conf2 ≠ conf →
      add_packages t1 [PyVal.str n] conf2 =
        (t1, some (ClawRegistrationError.conflicting_conf n))) ∧
    ((names = [] ∨ ∃ x ∈ names, is_valid_package_name_obj x = false) →
      ∃ e, add_packages trie names conf = (trie, some e)) := by
  by_cases hid : is_identifier n = true
  case neg =>
      exfalso
      simp [add_packages, validate_package_names, hid] at hreg
  case pos =>
      have hval : validate_package_names [PyVal.str n] = none := by
        simp [validate_package_names, hid]
      simp [add_packages, hval] at hreg
      cases hrb : register_basenames n trie (splitDot n) conf with
      | error e => simp [register_packages, hrb] at hreg
      | ok t2 =>
          simp [register_packages, hrb] at hreg
          subst hreg
          refine ⟨?_, ?_, ?_⟩
          · simp [add_packages, hval, register_packages,
              register_basenames_idem _ _ _ _ _ hrb]
          · intro hne
            simp [add_packages, hval, register_packages,
              register_basenames_conflict _ _ _ _ _ _ hrb hne]
          · rintro (hempty | ⟨x, hx, hinv⟩)
            · subst hempty
              exact ⟨.names_empty, by simp [add_packages]⟩
            · obtain ⟨e, he⟩ := validate_some_of_invalid names x hx hinv
              cases names with
              | nil => cases hx
              | cons y rest => exact ⟨e, by simp [add_packages, he]⟩

/-- Witness for C8: a concrete registry with one registered package accepts
the identical configuration silently, rejects a different one, and a
non-string member of the names iterable is rejected without registration. -/
theorem add_packages_registration_witness :
    (add_packages (PkgTrie.mk none [("mypkg", PkgTrie.mk (some 0) [])])
        [PyVal.str "mypkg"] 0 =
      (PkgTrie.mk none [("mypkg", PkgTrie.mk (some 0) [])], none)) ∧
    (add_packages (PkgTrie.mk none [("mypkg", PkgTrie.mk (some 0) [])])
        [PyVal.str "mypkg"] 1 =
      (PkgTrie.mk none [("mypkg", PkgTrie.mk (some 0) [])],
        some (ClawRegistrationError.conflicting_conf "mypkg"))) ∧
    ∃ e, add_packages (PkgTrie.mk none []) [PyVal.nonstr 7] 0 =
      (PkgTrie.mk none [], some e) := by
  have h := add_packages_registration (PkgTrie.mk none [])
    (PkgTrie.mk none [("mypkg", PkgTrie.mk (some 0) [])]) "mypkg" 0 1
    [PyVal.nonstr 7] rfl
  exact ⟨h.1, h.2.1 (by decide),
    h.2.2 (Or.inr ⟨PyVal.nonstr 7, List.mem_cons_self _ _, rfl⟩)⟩
